import Mathlib

/-
Verification of the query-relay core of the NCI GDC MCP server
(src/index.ts, method `executeNciGdcGraphQLQuery` of class `NciGdcMCP`,
together with the request construction it performs).

The relay receives a GraphQL query string and an optional variables mapping,
issues a single HTTP POST to a fixed endpoint, and classifies the outcome:
transport failure, non-2xx status, 2xx with a non-JSON body, or 2xx with a
JSON body (passed through verbatim).  We embed the function shallowly:
JSON values are an inductive type, the single fetch is an explicit outcome
parameter (the host's `fetch`, `Response.text` and `JSON.parse` are external),
and JavaScript `s.slice(0, n)` is taking the first n characters.
-/

namespace GdcRelay

/-- JSON values as the relay manipulates them (JavaScript objects keep their
field insertion order, so an object is a list of key-value pairs). -/
inductive Json where
  | null : Json
  | bool : Bool → Json
  | num : Int → Json
  | str : String → Json
  | arr : List Json → Json
  | obj : List (String × Json) → Json

/-- Key lookup in a JavaScript object's field list (keys are unique in a
JavaScript object, so first match is the match). -/
def lookupField : List (String × Json) → String → Option Json
  | [], _ => none
  | (k, val) :: rest, key => if k = key then some val else lookupField rest key

/-- Property access `j[key]` on a JSON value: a field of an object, absent
otherwise. -/
def Json.getField : Json → String → Option Json
  | Json.obj fs, key => lookupField fs key
  | _, _ => none

/-- JavaScript `s.slice(0, n)`: the first n characters of s. -/
def jsSlice (s : String) (n : Nat) : String := ⟨s.data.take n⟩

/-- The fixed upstream endpoint, field `GDC_GRAPHQL_ENDPOINT` of `NciGdcMCP`. -/
def GDC_GRAPHQL_ENDPOINT : String := "https://api.gdc.cancer.gov/v0/graphql"

/-- The `headers` constant built at the top of `executeNciGdcGraphQLQuery`. -/
def requestHeaders : List (String × String) :=
  [("Content-Type", "application/json"),
   ("Accept", "application/json"),
   ("User-Agent", "NciGdcMCP/0.1.0 (ModelContextProtocol; +https://modelcontextprotocol.io)")]

/-- The `bodyData` object: `{ query }`, plus `variables` exactly when the
mapping is supplied and `Object.keys(variables).length > 0`. -/
def buildBodyData (query : String) (vars : Option (List (String × Json))) : Json :=
  match vars with
  | some vs =>
      if vs.length > 0 then
        Json.obj [("query", Json.str query), ("variables", Json.obj vs)]
      else
        Json.obj [("query", Json.str query)]
  | none => Json.obj [("query", Json.str query)]

/-- The outbound HTTP request the relay hands to `fetch`. -/
structure GdcRequest where
  method : String
  url : String
  headers : List (String × String)
  body : Json

/-- The argument of the single `fetch` call: POST to the fixed endpoint with
the fixed headers and the JSON body `bodyData`. -/
def buildRequest (query : String) (vars : Option (List (String × Json))) : GdcRequest :=
  ⟨"POST", GDC_GRAPHQL_ENDPOINT, requestHeaders, buildBodyData query vars⟩

/-- An upstream HTTP response: its status code and the result of reading its
body as text (`Except.error m` when `response.text()` / the body read inside
`response.json()` throws with message m). -/
structure HttpResponse where
  status : Nat
  textRead : Except String String

/-- `response.ok`: status in the 2xx success range. -/
def responseOk (r : HttpResponse) : Bool :=
  200 ≤ r.status && r.status < 300

/-- Outcome of the `fetch` call itself: either the call throws (network, DNS,
TLS failure — `FetchOutcome.fail` carries the error's message) or it yields
a response. -/
inductive FetchOutcome where
  | fail : String → FetchOutcome
  | resp : HttpResponse → FetchOutcome

/-- Shallow embedding of `executeNciGdcGraphQLQuery` (src/index.ts lines
221-313).  `parse` stands for the host's `JSON.parse` as invoked by
`response.json()`.  Control flow follows the source:

* the outer catch turns any thrown error into
  `{errors: [{message: "Client-side error: " + msg}]}`;
* `!response.ok`: `errorText` starts as `"NCI GDC API HTTP Error " + status`
  and, when the body read succeeds, gets `": " + body.slice(0, 500)`
  appended; the envelope carries that text and the status code;
* `response.ok` but `response.json()` throws: when the throw came from the
  body read, the `await response.text()` in the catch throws again and the
  outer catch produces the client-side envelope; when the body read is fine
  and only parsing failed, the non-JSON envelope carries
  `errorText.slice(0, 1000)`;
* otherwise the parsed body is returned unmodified. -/
def executeNciGdcGraphQLQuery (parse : String → Option Json) (query : String)
    (vars : Option (List (String × Json))) (outcome : FetchOutcome) : Json :=
  match outcome with
  | FetchOutcome.fail errorMessage =>
      Json.obj [("errors", Json.arr [Json.obj
        [("message", Json.str ("Client-side error: " ++ errorMessage))]])]
  | FetchOutcome.resp r =>
      if !responseOk r then
        let baseMsg := "NCI GDC API HTTP Error " ++ toString r.status
        let errorText :=
          match r.textRead with
          | Except.ok errorBody => baseMsg ++ ": " ++ jsSlice errorBody 500
          | Except.error _ => baseMsg
        Json.obj [("errors", Json.arr [Json.obj
          [("message", Json.str baseMsg),
           ("extensions", Json.obj
             [("statusCode", Json.num (Int.ofNat r.status)),
              ("responseText", Json.str errorText)])]])]
      else
        match r.textRead with
        | Except.error readErr =>
            Json.obj [("errors", Json.arr [Json.obj
              [("message", Json.str ("Client-side error: " ++ readErr))]])]
        | Except.ok bodyText =>
            match parse bodyText with
            | some responseBody => responseBody
            | none =>
                Json.obj [("errors", Json.arr [Json.obj
                  [("message", Json.str "NCI GDC API Error: Non-JSON response."),
                   ("extensions", Json.obj
                     [("statusCode", Json.num (Int.ofNat r.status)),
                      ("responseText", Json.str (jsSlice bodyText 1000))])]])]

/-- One invocation of the relay: the list of requests it issues (always the
single `fetch` of `buildRequest`) paired with the returned value. -/
def relayRun (parse : String → Option Json) (query : String)
    (vars : Option (List (String × Json))) (outcome : FetchOutcome) :
    List GdcRequest × Json :=
  ([buildRequest query vars], executeNciGdcGraphQLQuery parse query vars outcome)

/-- The `errors` field of a relay result, when it is an array. -/
def errorsOf (j : Json) : Option (List Json) :=
  match j.getField "errors" with
  | some (Json.arr es) => some es
  | _ => none

/-- The `message` string of the first error of a relay result. -/
def errMessageOf (j : Json) : Option String :=
  match errorsOf j with
  | some (e :: _) =>
      match e.getField "message" with
      | some (Json.str s) => some s
      | _ => none
  | _ => none

/-- The `extensions` object of the first error of a relay result. -/
def extensionsOf (j : Json) : Option Json :=
  match errorsOf j with
  | some (e :: _) => e.getField "extensions"
  | _ => none

/-- The `extensions.statusCode` number of the first error of a relay result. -/
def statusCodeOf (j : Json) : Option Int :=
  match extensionsOf j with
  | some ext =>
      match ext.getField "statusCode" with
      | some (Json.num n) => some n
      | _ => none
  | none => none

/-- The `extensions.responseText` string of the first error of a relay result. -/
def responseTextOf (j : Json) : Option String :=
  match extensionsOf j with
  | some ext =>
      match ext.getField "responseText" with
      | some (Json.str s) => some s
      | _ => none
  | none => none

/-- Whether a relay result carries a nonempty `errors` array. -/
def isErrorEnvelope (j : Json) : Bool :=
  match errorsOf j with
  | some (_ :: _) => true
  | _ => false

/-- The outcomes on which the relay synthesizes an envelope itself: the fetch
threw, the status is not 2xx, the body read failed, or the body is not JSON. -/
def isFailureOutcome (parse : String → Option Json) (outcome : FetchOutcome) : Bool :=
  match outcome with
  | FetchOutcome.fail _ => true
  | FetchOutcome.resp r =>
      if !responseOk r then true
      else
        match r.textRead with
        | Except.error _ => true
        | Except.ok body => (parse body).isNone

/-- A 600-character body, for exercising the 500-character cap. -/
def chars600 : String := ⟨List.replicate 600 'x'⟩

/-- A 1500-character body, for exercising the 1000-character cap. -/
def chars1500 : String := ⟨List.replicate 1500 'y'⟩

theorem jsSlice_length (s : String) (n : Nat) :
    (jsSlice s n).length = min n s.length := by
  show (s.data.take n).length = min n s.data.length
  exact List.length_take n s.data

/-- Claim C4: when `variables` is absent or an empty mapping, the outbound
body has no "variables" key at all; when it is non-empty, the body's
"variables" key is exactly the input mapping. -/
theorem claimC4_variablesOmission (q : String) (v : List (String × Json)) :
    Json.getField (buildBodyData q none) "variables" = none ∧
    Json.getField (buildBodyData q (some [])) "variables" = none ∧
    (v ≠ [] → Json.getField (buildBodyData q (some v)) "variables" = some (Json.obj v)) := by
  refine ⟨rfl, rfl, fun hv => ?_⟩
  have hlen : v.length > 0 := List.length_pos.mpr hv
  simp [buildBodyData, hlen, Json.getField, lookupField]

/-- Witness for C4 at the mapping [("filters", Json.str "f")]. -/
theorem claimC4_variablesOmission_witness :
    ([(("filters" : String), Json.str "f")] ≠ []) ∧
    Json.getField (buildBodyData "query Q" (some [("filters", Json.str "f")])) "variables" =
      some (Json.obj [("filters", Json.str "f")]) :=
  ⟨List.cons_ne_nil _ _,
   (claimC4_variablesOmission "query Q" [("filters", Json.str "f")]).2.2 (List.cons_ne_nil _ _)⟩

/-- Claim C5: on a 2xx response whose body parses as JSON, the relay returns
the parsed value unchanged, whatever it is (in particular whether or not it
carries a GraphQL-level errors field). -/
theorem claimC5_passThrough (parse : String → Option Json) (q : String)
    (v : Option (List (String × Json))) (status : Nat) (body : String) (j : Json)
    (hok : 200 ≤ status ∧ status < 300) (hparse : parse body = some j) :
    executeNciGdcGraphQLQuery parse q v (FetchOutcome.resp ⟨status, Except.ok body⟩) = j := by
  have hok' : responseOk ⟨status, Except.ok body⟩ = true := by
    simp [responseOk]
    omega
  simp [executeNciGdcGraphQLQuery, hok', hparse]

/-- Witness for C5: status 200 with the parsed body
given by the object for the text (data.projects.hits.total = 5). -/
theorem claimC5_passThrough_witness :
    (200 ≤ 200 ∧ 200 < 300) ∧
    executeNciGdcGraphQLQuery
      (fun _ => some (Json.obj [("data", Json.obj [("projects", Json.obj
        [("hits", Json.obj [("total", Json.num 5)])])])]))
      "query Q" none (FetchOutcome.resp ⟨200, Except.ok "body"⟩) =
      Json.obj [("data", Json.obj [("projects", Json.obj
        [("hits", Json.obj [("total", Json.num 5)])])])] :=
  ⟨by omega,
   claimC5_passThrough _ "query Q" none 200 "body" _ (by omega) rfl⟩

/-- Claim C6: when the fetch call itself throws with message m, the relay
returns an envelope with the single error message "Client-side error: " ++ m
and no extensions key. -/
theorem claimC6_clientSideError (parse : String → Option Json) (q : String)
    (v : Option (List (String × Json))) (m : String) :
    executeNciGdcGraphQLQuery parse q v (FetchOutcome.fail m) =
      Json.obj [("errors", Json.arr [Json.obj
        [("message", Json.str ("Client-side error: " ++ m))]])] ∧
    extensionsOf (executeNciGdcGraphQLQuery parse q v (FetchOutcome.fail m)) = none := by
  exact ⟨rfl, rfl⟩

/-- Claim C8: every invocation issues exactly one request: a POST to the
fixed endpoint, with exactly the JSON content-type, accept and user-agent
headers, whose body carries the query string unmodified; no authorization
header is attached and the endpoint URL carries no query parameter. -/
theorem claimC8_singleRequest (parse : String → Option Json) (q : String)
    (v : Option (List (String × Json))) (o : FetchOutcome) :
    (relayRun parse q v o).1 = [buildRequest q v] ∧
    (buildRequest q v).method = "POST" ∧
    (buildRequest q v).url = "https://api.gdc.cancer.gov/v0/graphql" ∧
    (buildRequest q v).headers =
      [("Content-Type", "application/json"),
       ("Accept", "application/json"),
       ("User-Agent", "NciGdcMCP/0.1.0 (ModelContextProtocol; +https://modelcontextprotocol.io)")] ∧
    Json.getField (buildRequest q v).body "query" = some (Json.str q) ∧
    (∀ h ∈ (buildRequest q v).headers, h.1 ≠ "Authorization") ∧
    '?' ∉ GDC_GRAPHQL_ENDPOINT.data := by
  refine ⟨rfl, rfl, rfl, rfl, ?_,
    show ∀ h ∈ requestHeaders, h.1 ≠ "Authorization" by decide, by decide⟩
  cases v with
  | none => rfl
  | some vs =>
      cases vs with
      | nil => rfl
      | cons a rest => simp [buildRequest, buildBodyData, Json.getField, lookupField]

/-- Claim C1 as stated is false: for the 2xx non-JSON case the source emits
the message "NCI GDC API Error: Non-JSON response.", not
"Upstream Error: Non-JSON response.": at status 200 with body "not json"
(unparsable), the produced message differs from the claimed one. -/
theorem claimC1_counterexample :
    errMessageOf (executeNciGdcGraphQLQuery (fun _ => none) "query Q" none
        (FetchOutcome.resp ⟨200, Except.ok "not json"⟩)) ≠
      some "Upstream Error: Non-JSON response." := by
  decide

/-- Claim C1 (amended): on every 2xx response whose body reads as text but
does not parse as JSON, the relay returns an envelope whose single error has
message "NCI GDC API Error: Non-JSON response." and extensions carrying the
status code and the first 1000 characters of the raw body. -/
theorem claimC1_nonJsonEnvelope (parse : String → Option Json) (q : String)
    (v : Option (List (String × Json))) (status : Nat) (body : String)
    (hok : 200 ≤ status ∧ status < 300) (hparse : parse body = none) :
    executeNciGdcGraphQLQuery parse q v (FetchOutcome.resp ⟨status, Except.ok body⟩) =
      Json.obj [("errors", Json.arr [Json.obj
        [("message", Json.str "NCI GDC API Error: Non-JSON response."),
         ("extensions", Json.obj
           [("statusCode", Json.num (Int.ofNat status)),
            ("responseText", Json.str (jsSlice body 1000))])]])] := by
  have hok' : responseOk ⟨status, Except.ok body⟩ = true := by
    simp [responseOk]
    omega
  simp [executeNciGdcGraphQLQuery, hok', hparse]

/-- Witness for C1 at status 200 with body "not json": the responseText is
exactly "not json". -/
theorem claimC1_nonJsonEnvelope_witness :
    (200 ≤ 200 ∧ 200 < 300) ∧
    executeNciGdcGraphQLQuery (fun _ => none) "query Q" none
        (FetchOutcome.resp ⟨200, Except.ok "not json"⟩) =
      Json.obj [("errors", Json.arr [Json.obj
        [("message", Json.str "NCI GDC API Error: Non-JSON response."),
         ("extensions", Json.obj
           [("statusCode", Json.num 200),
            ("responseText", Json.str "not json")])]])] :=
  ⟨by omega, by
    have h := claimC1_nonJsonEnvelope (fun _ => none) "query Q" none 200 "not json"
      (by omega) rfl
    rw [h]
    rfl⟩

/-- Claim C2 as stated is false: for the non-2xx case the source emits the
message "NCI GDC API HTTP Error 500", not "Upstream HTTP Error 500", at
status 500 with body "server exploded". -/
theorem claimC2_counterexample :
    errMessageOf (executeNciGdcGraphQLQuery (fun _ => none) "query Q" none
        (FetchOutcome.resp ⟨500, Except.ok "server exploded"⟩)) ≠
      some "Upstream HTTP Error 500" := by
  decide

/-- Claim C2 (amended): on every non-2xx response whose body reads as text,
the relay returns an envelope whose single error has message
"NCI GDC API HTTP Error <status>", extensions.statusCode = status, and
responseText equal to that message followed by ": " and the first 500
characters of the body (hence containing the 500-truncated body). -/
theorem claimC2_httpErrorEnvelope (parse : String → Option Json) (q : String)
    (v : Option (List (String × Json))) (status : Nat) (body : String)
    (hbad : ¬ (200 ≤ status ∧ status < 300)) :
    executeNciGdcGraphQLQuery parse q v (FetchOutcome.resp ⟨status, Except.ok body⟩) =
      Json.obj [("errors", Json.arr [Json.obj
        [("message", Json.str ("NCI GDC API HTTP Error " ++ toString status)),
         ("extensions", Json.obj
           [("statusCode", Json.num (Int.ofNat status)),
            ("responseText", Json.str
              ("NCI GDC API HTTP Error " ++ toString status ++ ": " ++ jsSlice body 500))])]])] := by
  have hbad' : responseOk ⟨status, Except.ok body⟩ = false := by
    simp [responseOk]
    omega
  simp [executeNciGdcGraphQLQuery, hbad']

/-- Witness for C2 at status 500 with body "server exploded": the envelope is
as the amended claim states, and its responseText contains "server exploded"
and is at most 500 characters long. -/
theorem claimC2_httpErrorEnvelope_witness :
    (¬ (200 ≤ 500 ∧ 500 < 300)) ∧
    executeNciGdcGraphQLQuery (fun _ => none) "query Q" none
        (FetchOutcome.resp ⟨500, Except.ok "server exploded"⟩) =
      Json.obj [("errors", Json.arr [Json.obj
        [("message", Json.str "NCI GDC API HTTP Error 500"),
         ("extensions", Json.obj
           [("statusCode", Json.num 500),
            ("responseText", Json.str "NCI GDC API HTTP Error 500: server exploded")])]])] ∧
    ("NCI GDC API HTTP Error 500: server exploded" : String).length ≤ 500 ∧
    "server exploded".data.IsInfix "NCI GDC API HTTP Error 500: server exploded".data :=
  ⟨by omega, by
    have h := claimC2_httpErrorEnvelope (fun _ => none) "query Q" none 500 "server exploded"
      (by omega)
    rw [h]
    rfl,
   by decide, by decide⟩

/-- Claim C9: on a non-2xx response whose body read throws, the relay still
returns the HTTP-error envelope for that status — statusCode is the status
and the message is unchanged; only the body suffix of responseText is
missing — rather than any other classification. -/
theorem claimC9_bestEffortRead (parse : String → Option Json) (q : String)
    (v : Option (List (String × Json))) (status : Nat) (readErr : String)
    (hbad : ¬ (200 ≤ status ∧ status < 300)) :
    executeNciGdcGraphQLQuery parse q v (FetchOutcome.resp ⟨status, Except.error readErr⟩) =
      Json.obj [("errors", Json.arr [Json.obj
        [("message", Json.str ("NCI GDC API HTTP Error " ++ toString status)),
         ("extensions", Json.obj
           [("statusCode", Json.num (Int.ofNat status)),
            ("responseText", Json.str ("NCI GDC API HTTP Error " ++ toString status))])]])] := by
  have hbad' : responseOk ⟨status, Except.error readErr⟩ = false := by
    simp [responseOk]
    omega
  simp [executeNciGdcGraphQLQuery, hbad']

/-- Witness for C9 at status 502 with a failing body read. -/
theorem claimC9_bestEffortRead_witness :
    (¬ (200 ≤ 502 ∧ 502 < 300)) ∧
    executeNciGdcGraphQLQuery (fun _ => none) "query Q" none
        (FetchOutcome.resp ⟨502, Except.error "stream broken"⟩) =
      Json.obj [("errors", Json.arr [Json.obj
        [("message", Json.str "NCI GDC API HTTP Error 502"),
         ("extensions", Json.obj
           [("statusCode", Json.num 502),
            ("responseText", Json.str "NCI GDC API HTTP Error 502")])]])] :=
  ⟨by omega, by
    have h := claimC9_bestEffortRead (fun _ => none) "query Q" none 502 "stream broken"
      (by omega)
    rw [h]
    rfl⟩

theorem string_append_ne_empty (s t : String) (hs : s.length ≠ 0) : s ++ t ≠ "" := by
  intro h
  have hlen := congrArg String.length h
  rw [String.length_append] at hlen
  simp at hlen
  omega

/-- Claim C3: the relay function is total and every failure path yields an
envelope: for every parse function, query, variables and fetch outcome, the
result is either the parsed upstream body of a successfully-read 2xx JSON
response, returned verbatim, or an object carrying a nonempty errors array. -/
theorem claimC3_neverRaises (parse : String → Option Json) (q : String)
    (v : Option (List (String × Json))) (o : FetchOutcome) :
    (∃ status body j, o = FetchOutcome.resp ⟨status, Except.ok body⟩ ∧
        (200 ≤ status ∧ status < 300) ∧ parse body = some j ∧
        executeNciGdcGraphQLQuery parse q v o = j) ∨
    isErrorEnvelope (executeNciGdcGraphQLQuery parse q v o) = true := by
  cases o with
  | fail m => right; rfl
  | resp r =>
      obtain ⟨status, textRead⟩ := r
      by_cases hok : 200 ≤ status ∧ status < 300
      · have hok' : responseOk ⟨status, textRead⟩ = true := by
          simp [responseOk]
          omega
        cases textRead with
        | error e =>
            right
            simp [executeNciGdcGraphQLQuery, hok', isErrorEnvelope, errorsOf,
              Json.getField, lookupField]
        | ok body =>
            cases hp : parse body with
            | some j =>
                left
                exact ⟨status, body, j, rfl, hok, hp,
                  by simp [executeNciGdcGraphQLQuery, hok', hp]⟩
            | none =>
                right
                simp [executeNciGdcGraphQLQuery, hok', hp, isErrorEnvelope, errorsOf,
                  Json.getField, lookupField]
      · have hbad' : responseOk ⟨status, textRead⟩ = false := by
          simp [responseOk]
          omega
        right
        simp [executeNciGdcGraphQLQuery, hbad', isErrorEnvelope, errorsOf,
          Json.getField, lookupField]

/-- Claim C10: on every outcome on which the relay synthesizes an envelope
itself, the errors array holds exactly one error and that error's message is
a non-empty string. -/
theorem claimC10_singleNonEmptyError (parse : String → Option Json) (q : String)
    (v : Option (List (String × Json))) (o : FetchOutcome)
    (h : isFailureOutcome parse o = true) :
    ∃ e msg, errorsOf (executeNciGdcGraphQLQuery parse q v o) = some [e] ∧
      errMessageOf (executeNciGdcGraphQLQuery parse q v o) = some msg ∧ msg ≠ "" := by
  cases o with
  | fail m =>
      refine ⟨_, "Client-side error: " ++ m, rfl, rfl, ?_⟩
      exact string_append_ne_empty "Client-side error: " m (by decide)
  | resp r =>
      obtain ⟨status, textRead⟩ := r
      by_cases hok : 200 ≤ status ∧ status < 300
      · have hok' : responseOk ⟨status, textRead⟩ = true := by
          simp [responseOk]
          omega
        cases textRead with
        | error e =>
            refine ⟨Json.obj [("message", Json.str ("Client-side error: " ++ e))],
              "Client-side error: " ++ e, ?_, ?_, ?_⟩
            · simp [executeNciGdcGraphQLQuery, hok', errorsOf, Json.getField, lookupField]
            · simp [executeNciGdcGraphQLQuery, hok', errMessageOf, errorsOf,
                Json.getField, lookupField]
            · exact string_append_ne_empty "Client-side error: " e (by decide)
        | ok body =>
            cases hp : parse body with
            | some j =>
                exfalso
                rw [isFailureOutcome] at h
                simp [hok', hp] at h
            | none =>
                refine ⟨Json.obj
                  [("message", Json.str "NCI GDC API Error: Non-JSON response."),
                   ("extensions", Json.obj
                     [("statusCode", Json.num (Int.ofNat status)),
                      ("responseText", Json.str (jsSlice body 1000))])],
                  "NCI GDC API Error: Non-JSON response.", ?_, ?_, by decide⟩
                · simp [executeNciGdcGraphQLQuery, hok', hp, errorsOf,
                    Json.getField, lookupField]
                · simp [executeNciGdcGraphQLQuery, hok', hp, errMessageOf, errorsOf,
                    Json.getField, lookupField]
      · have hbad' : responseOk ⟨status, textRead⟩ = false := by
          simp [responseOk]
          omega
        cases textRead with
        | error e =>
            refine ⟨Json.obj
              [("message", Json.str ("NCI GDC API HTTP Error " ++ toString status)),
               ("extensions", Json.obj
                 [("statusCode", Json.num (Int.ofNat status)),
                  ("responseText", Json.str ("NCI GDC API HTTP Error " ++ toString status))])],
              "NCI GDC API HTTP Error " ++ toString status, ?_, ?_, ?_⟩
            · simp [executeNciGdcGraphQLQuery, hbad', errorsOf, Json.getField, lookupField]
            · simp [executeNciGdcGraphQLQuery, hbad', errMessageOf, errorsOf,
                Json.getField, lookupField]
            · exact string_append_ne_empty "NCI GDC API HTTP Error " (toString status) (by decide)
        | ok body =>
            refine ⟨Json.obj
              [("message", Json.str ("NCI GDC API HTTP Error " ++ toString status)),
               ("extensions", Json.obj
                 [("statusCode", Json.num (Int.ofNat status)),
                  ("responseText", Json.str
                    ("NCI GDC API HTTP Error " ++ toString status ++ ": " ++ jsSlice body 500))])],
              "NCI GDC API HTTP Error " ++ toString status, ?_, ?_, ?_⟩
            · simp [executeNciGdcGraphQLQuery, hbad', errorsOf, Json.getField, lookupField]
            · simp [executeNciGdcGraphQLQuery, hbad', errMessageOf, errorsOf,
                Json.getField, lookupField]
            · exact string_append_ne_empty "NCI GDC API HTTP Error " (toString status) (by decide)

/-- Witness for C10 on a transport failure with message "connection reset". -/
theorem claimC10_singleNonEmptyError_witness :
    isFailureOutcome (fun _ => none) (FetchOutcome.fail "connection reset") = true ∧
    ∃ e msg,
      errorsOf (executeNciGdcGraphQLQuery (fun _ => none) "query Q" none
          (FetchOutcome.fail "connection reset")) = some [e] ∧
      errMessageOf (executeNciGdcGraphQLQuery (fun _ => none) "query Q" none
          (FetchOutcome.fail "connection reset")) = some msg ∧ msg ≠ "" :=
  ⟨rfl, claimC10_singleNonEmptyError (fun _ => none) "query Q" none
    (FetchOutcome.fail "connection reset") rfl⟩

/-- Claim C7: the truncation caps. On the HTTP-error path the responseText is
the fixed message prefix followed by at most 500 characters of the body; on
the non-JSON path it is the body capped at 1000 characters, exactly 1000
when the body is at least that long. -/
theorem claimC7_truncationCaps (parse : String → Option Json) (q : String)
    (v : Option (List (String × Json))) (status : Nat) (body : String) :
    (¬ (200 ≤ status ∧ status < 300) →
      responseTextOf (executeNciGdcGraphQLQuery parse q v
          (FetchOutcome.resp ⟨status, Except.ok body⟩)) =
        some ("NCI GDC API HTTP Error " ++ toString status ++ ": " ++ jsSlice body 500) ∧
      (jsSlice body 500).length ≤ 500) ∧
    ((200 ≤ status ∧ status < 300) → parse body = none →
      responseTextOf (executeNciGdcGraphQLQuery parse q v
          (FetchOutcome.resp ⟨status, Except.ok body⟩)) = some (jsSlice body 1000) ∧
      (1000 ≤ body.length → (jsSlice body 1000).length = 1000)) := by
  constructor
  · intro hbad
    have hbad' : responseOk ⟨status, Except.ok body⟩ = false := by
      simp [responseOk]
      omega
    constructor
    · simp [executeNciGdcGraphQLQuery, hbad', responseTextOf, extensionsOf, errorsOf,
        Json.getField, lookupField]
    · rw [jsSlice_length]
      omega
  · intro hok hp
    have hok' : responseOk ⟨status, Except.ok body⟩ = true := by
      simp [responseOk]
      omega
    constructor
    · simp [executeNciGdcGraphQLQuery, hok', hp, responseTextOf, extensionsOf, errorsOf,
        Json.getField, lookupField]
    · intro hlong
      rw [jsSlice_length]
      omega

/-- Witness for C7: a 600-character body on the HTTP-error path and a
1500-character body on the non-JSON path. -/
theorem claimC7_truncationCaps_witness :
    (¬ (200 ≤ 500 ∧ 500 < 300)) ∧
    (jsSlice chars600 500).length ≤ 500 ∧
    (200 ≤ 200 ∧ 200 < 300) ∧
    1000 ≤ chars1500.length ∧
    (jsSlice chars1500 1000).length = 1000 ∧
    responseTextOf (executeNciGdcGraphQLQuery (fun _ => none) "query Q" none
        (FetchOutcome.resp ⟨200, Except.ok chars1500⟩)) = some (jsSlice chars1500 1000) := by
  have hlen : (1000 : Nat) ≤ chars1500.length := by
    show 1000 ≤ (List.replicate 1500 'y').length
    rw [List.length_replicate]
    omega
  refine ⟨by omega,
    ((claimC7_truncationCaps (fun _ => none) "query Q" none 500 chars600).1 (by omega)).2,
    by omega, hlen,
    ((claimC7_truncationCaps (fun _ => none) "query Q" none 200 chars1500).2 (by omega) rfl).2 hlen,
    ((claimC7_truncationCaps (fun _ => none) "query Q" none 200 chars1500).2 (by omega) rfl).1⟩

end GdcRelay
